import Mathlib

/-!
Verification of the yuppy encapsulation library (src/yuppy.py).

The development shallowly embeds the attribute-descriptor and
class-encapsulation protocol of `yuppy.py`: attribute kinds
(constant / variable / static variable / method) crossed with visibility
strings, the `encapsulate` wrapper class `Object` with its
`__getattribute__` / `__setattr__` / `__delattr__` interception, the
`call` / `get_visibility` / `get_definition` guard, and the
`interface` / `implements` / `final` decorators.  Python values are
modelled by a small dynamic value type, machine-level details (ids of
static attribute objects) by explicit indices, and every raise site of
the source by a structured error carrying exactly the format-string
arguments of the corresponding Python `AttributeError` / `TypeError`.
-/

/-- Dynamic values, covering the Python values the library's tests and
checks manipulate: ints, strings, booleans and `None`. -/
inductive PyVal where
  | int : Int → PyVal
  | str : String → PyVal
  | bool : Bool → PyVal
  | none : PyVal
deriving DecidableEq, Repr

/-- Built-in Python types usable as a `type=` constraint of a variable. -/
inductive PyType where
  | intT | strT | boolT
deriving DecidableEq, Repr

/-- Python `isinstance` for the modelled builtin types.  `bool` is a
subclass of `int` in Python, so a boolean is an instance of `int`. -/
def isinstanceT : PyVal → PyType → Bool
  | .int _, .intT => true
  | .bool _, .intT => true
  | .str _, .strT => true
  | .bool _, .boolT => true
  | _, _ => false

/-- Python truthiness, used by the `bool(...)` coercion. -/
def truthy : PyVal → Bool
  | .int n => n != 0
  | .str s => s != ""
  | .bool b => b
  | .none => false

/-- Rendering of a value by Python `str(...)`. -/
def strOfVal : PyVal → String
  | .int n => toString n
  | .str s => s
  | .bool true => "True"
  | .bool false => "False"
  | .none => "None"

/-- Parsing of a decimal integer literal as Python `int(string)` does:
an optional sign followed by at least one digit. -/
def parseIntStr (s : String) : Option Int :=
  let digits : List Char → Option Nat := fun cs =>
    if cs.isEmpty then Option.none
    else cs.foldl (fun acc c =>
      match acc with
      | Option.none => Option.none
      | Option.some n => if c.isDigit then Option.some (n * 10 + (c.toNat - '0'.toNat)) else Option.none)
      (Option.some 0)
  match s.data with
  | '-' :: rest => (digits rest).map (fun n => -(n : Int))
  | '+' :: rest => (digits rest).map (fun n => (n : Int))
  | cs => (digits cs).map (fun n => (n : Int))

/-- Coercion call `type(value)` attempted by `_Variable._validate` when a
value is not an instance of the declared type.  `Except.error` stands for
the `TypeError` / `ValueError` the call can raise: `int` fails on
non-numeric strings and on `None`; `str` and `bool` accept anything. -/
def coerceT : PyType → PyVal → Except Unit PyVal
  | .intT, .int n => .ok (.int n)
  | .intT, .bool b => .ok (.int (if b then 1 else 0))
  | .intT, .str s =>
    match parseIntStr s with
    | Option.some n => .ok (.int n)
    | Option.none => .error ()
  | .intT, .none => .error ()
  | .strT, v => .ok (.str (strOfVal v))
  | .boolT, v => .ok (.bool (truthy v))

/-- Declared type constraint of a variable: `__type__` holds either one
type or a tuple/list of types (`isinstance(self.__type__, (list, tuple))`
distinguishes the two in `_validate`). -/
inductive TypeCon where
  | single : PyType → TypeCon
  | multi : List PyType → TypeCon
deriving DecidableEq, Repr

/-- Python `isinstance(value, self.__type__)`, which accepts a tuple of
types by taking the disjunction. -/
def isinstanceCon (v : PyVal) : TypeCon → Bool
  | .single t => isinstanceT v t
  | .multi ts => ts.any (isinstanceT v)

/-- Configuration of a `_Variable` attribute as built by its
constructor: `__hasdefault__`, `__default__` (`None` when absent),
`__type__` and `__validate__`. -/
structure VarSpec where
  hasdefault : Bool
  default : PyVal
  type? : Option TypeCon
  validate? : Option (PyVal → Bool)

/-- Structured model of every error the library raises.  Each
constructor corresponds to one raise site and carries exactly the
format-string arguments interpolated there; `renderErr` reproduces the
message text.  All constructors except `missingInterfaceAttr` and
`typeError` model `AttributeError`s. -/
inductive YErr where
  /-- raised by `call` in `encapsulate`: `"Cannot access %s '%s' member '%s'." % (visibility, cls.__name__, attr)`. -/
  | visibilityViolation (vis clsName attr : String)
  /-- raised by `_PrivateAttribute`/`_ProtectedAttribute` descriptors on the wrapper class: `"Cannot access %s %s object member '%s'."` with `instance.__class__.__name__` (the wrapper class, literally named `Object`). -/
  | placeholderAccess (vis instClsName attr : String)
  /-- raised by `_Constant.__set__`: `"Cannot override %s object constant '%s'." % (instance.__class__.__name__, self.__name__)`. -/
  | constantOverride (instClsName attr : String)
  /-- raised by `_Variable._validate`: `"Invalid attribute value for '%s'." % (self.__name__,)`. -/
  | invalidValue (attr : String)
  /-- raised on missing-attribute lookups (`_Variable.__get__`, `_StaticVariable.__get__`, `get_definition`, plain instance lookup): `"%s object has no attribute '%s'."`. -/
  | noAttribute (clsName attr : String)
  /-- raised by CPython itself when `delattr` hits a descriptor that defines `__set__` but no `__delete__` (the library's attribute classes define the finalizer `__del__`, which is not the descriptor delete hook): `AttributeError: __delete__`. -/
  | descriptorDeleteMissing
  /-- raised by `implements`: `"'%s' definition missing attribute '%s' from '%s' interface."` (a `TypeError`). -/
  | missingInterfaceAttr (clsName attr ifaceName : String)
  /-- any other `TypeError` with its message. -/
  | typeError (msg : String)
deriving DecidableEq, Repr

/-- Message text of an error, following the source's format strings. -/
def renderErr : YErr → String
  | .visibilityViolation vis c a => "Cannot access " ++ vis ++ " '" ++ c ++ "' member '" ++ a ++ "'."
  | .placeholderAccess vis c a => "Cannot access " ++ vis ++ " " ++ c ++ " object member '" ++ a ++ "'."
  | .constantOverride c a => "Cannot override " ++ c ++ " object constant '" ++ a ++ "'."
  | .invalidValue a => "Invalid attribute value for '" ++ a ++ "'."
  | .noAttribute c a => c ++ " object has no attribute '" ++ a ++ "'."
  | .descriptorDeleteMissing => "__delete__"
  | .missingInterfaceAttr c a i => "'" ++ c ++ "' definition missing attribute '" ++ a ++ "' from '" ++ i ++ "' interface."
  | .typeError m => m

/-- Lookup in an association list keyed by strings, modelling a Python
`dict` subscript that either hits or raises `KeyError`. -/
def lookupStr {α : Type} : List (String × α) → String → Option α
  | [], _ => Option.none
  | (k, v) :: rest, n => if k == n then Option.some v else lookupStr rest n

/-- Update of an association list at a key, modelling `d[k] = v`. -/
def setEntry {α : Type} : List (String × α) → String → α → List (String × α)
  | [], n, v => [(n, v)]
  | (k, w) :: rest, n, v => if k == n then (n, v) :: rest else (k, w) :: setEntry rest n v

/-- Removal of a key from an association list, modelling `del d[k]`. -/
def removeEntry {α : Type} : List (String × α) → String → List (String × α)
  | [], _ => []
  | (k, w) :: rest, n => if k == n then rest else (k, w) :: removeEntry rest n

/-- Test for a name that both begins and ends with two underscores, the
`name.startswith('__') and name.endswith('__')` check of
`Object.__getattribute__`. -/
def startsUU : List Char → Bool
  | c₁ :: c₂ :: _ => c₁ == '_' && c₂ == '_'
  | _ => false

/-- Dunder-name test: true exactly when the first two and the last two
characters are underscores. -/
def isDunder (s : String) : Bool :=
  startsUU s.data && startsUU s.data.reverse

/-- Validation performed by `_Variable._validate` (yuppy.py:146-171).
With a declared type, a value that is already an instance falls through
to the validator; otherwise a single (non-tuple/list) type is applied as
a coercion call whose result is returned **immediately, skipping the
validator**, and whose `TypeError`/`ValueError` becomes
`AttributeError("Invalid attribute value ...")`; a tuple/list constraint
without an instance match raises directly.  (The interface sub-branch of
the source inspects `self.__type__.__interface__`, which plain types do
not define, so for the type constraints modelled here it falls through
via `AttributeError: pass`.)  Without a type, or after an instance
match, a declared validator predicate must accept the value. -/
def validateVar (name : String) (s : VarSpec) (v : PyVal) : Except YErr PyVal :=
  let checkValidator : PyVal → Except YErr PyVal := fun w =>
    match s.validate? with
    | Option.some p => if p w then .ok w else .error (.invalidValue name)
    | Option.none => .ok w
  match s.type? with
  | Option.some tc =>
    if isinstanceCon v tc then checkValidator v
    else
      match tc with
      | .single t =>
        match coerceT t v with
        | .ok w => .ok w
        | .error _ => .error (.invalidValue name)
      | .multi _ => .error (.invalidValue name)
  | Option.none => checkValidator v

/-- Read of an instance variable, per `_Variable.__get__`
(yuppy.py:173-180): the instance `__dict__` entry if set, else the
declared default if any, else
`AttributeError("%s object has no attribute '%s'.")` with the instance's
class name. -/
def varGet (clsName name : String) (s : VarSpec) (idict : List (String × PyVal)) :
    Except YErr PyVal :=
  match lookupStr idict name with
  | Option.some v => .ok v
  | Option.none =>
    if s.hasdefault then .ok s.default
    else .error (.noAttribute clsName name)

/-- Class-scoped storage for static variables: one optional cell per
attribute-object identity (the `self.__value__` slot of each
`_StaticVariable` object). -/
def Store : Type := Nat → Option PyVal

/-- Store with no static value set anywhere. -/
def emptyStore : Store := fun _ => Option.none

/-- Store update at one static attribute object. -/
def updateStore (σ : Store) (i : Nat) (w : PyVal) : Store :=
  fun j => if j = i then Option.some w else σ j

/-- Read of a static variable, per `_StaticVariable.__get__`
(yuppy.py:217-225): the shared `self.__value__` cell if set, else the
default, else an `AttributeError` (whose class-name slot is filled by
`owner.__class__.__name__`, i.e. the string `type`). -/
def staticGet (name : String) (s : VarSpec) (sid : Nat) (σ : Store) : Except YErr PyVal :=
  match σ sid with
  | Option.some v => .ok v
  | Option.none =>
    if s.hasdefault then .ok s.default
    else .error (.noAttribute "type" name)

/-- Bodies of the methods the claims exercise, run with `self` bound to
an object: return a literal, return `self.<attr>`, or assign the call
argument to `self.<attr>` (returning `None` as a Python method with no
`return` does). -/
inductive MethodBody where
  | returnConst (v : PyVal)
  | getSelf (attr : String)
  | setSelf (attr : String)
deriving DecidableEq, Repr

/-- Class-body member, covering the `_Attribute` descriptor hierarchy of
yuppy.py plus the plain functions and values a class body may also hold.
`vis` is the `__visibility__` string (`"public"`, `"protected"`,
`"private"`); plain functions and values carry none.  A static variable
carries the identity `sid` of its `_StaticVariable` object, whose shared
`__value__` cell lives in a `Store`. -/
inductive Attr where
  | constant (vis : String) (value : PyVal)
  | varAttr (vis : String) (spec : VarSpec)
  | staticVar (vis : String) (spec : VarSpec) (sid : Nat)
  | method (vis : String) (body : MethodBody)
  | plainFn (body : MethodBody)
  | plainVal (v : PyVal)

/-- Value of `__visibility__` on a member, `Option.none` when reading it
raises `AttributeError` (plain functions and values). -/
def visibilityOf : Attr → Option String
  | .constant vis _ => Option.some vis
  | .varAttr vis _ => Option.some vis
  | .staticVar vis _ _ => Option.some vis
  | .method vis _ => Option.some vis
  | .plainFn _ => Option.none
  | .plainVal _ => Option.none

/-- Plain (pre-encapsulation) class: its name, its own `__dict__`, and
optionally a base class.  Single inheritance matches the library's
effective behaviour: `find_definition` in `encapsulate` returns out of
the first iteration of its loop over `__bases__`, so only the first base
chain is ever searched. -/
inductive PyClass where
  | base (name : String) (dict : List (String × Attr))
  | derived (name : String) (dict : List (String × Attr)) (parent : PyClass)

/-- Name of a class (`__name__`, preserved by the `copy.copy` in
`encapsulate`). -/
def PyClass.name : PyClass → String
  | .base n _ => n
  | .derived n _ _ => n

/-- Own `__dict__` of a class (not including inherited members). -/
def ownDict : PyClass → List (String × Attr)
  | .base _ d => d
  | .derived _ d _ => d

/-- Attribute lookup through the class chain: the class's own
`__dict__`, then the base chain.  This is both the lookup of Python's
`object.__getattribute__` on the type and the
`cls.__dict__[name]` / `find_definition` search of `get_definition` in
`encapsulate`. -/
def chainLookup : PyClass → String → Option Attr
  | .base _ d, n => lookupStr d n
  | .derived _ d p, n =>
    match lookupStr d n with
    | Option.some a => Option.some a
    | Option.none => chainLookup p n

/-- Plain instance of a (stripped, un-encapsulated) class: the inner
`self.__private__` object of `encapsulate`, with its own `__dict__` of
variable values. -/
structure InnerObj where
  cls : PyClass
  dict : List (String × PyVal)

/-- Result of an attribute read on a plain instance: a value, or a
method bound to that instance (`_Method.__get__` returning
`instancemethod`, or an ordinary function binding). -/
inductive InnerVal where
  | val (v : PyVal)
  | boundMethod (body : MethodBody)

/-- Attribute read on a plain instance, per Python
`object.__getattribute__` applied to the inner object: data descriptors
on the class chain (`_Constant`, `_Variable`, `_StaticVariable`, which
all define `__set__`) take precedence over the instance `__dict__`;
non-data descriptors (`_Method`, plain functions) and plain class values
yield to an instance `__dict__` entry; with nothing found anywhere the
read raises `AttributeError`. -/
def innerGet (i : InnerObj) (σ : Store) (name : String) : Except YErr InnerVal :=
  match chainLookup i.cls name with
  | Option.some (.constant _ v) => .ok (.val v)
  | Option.some (.varAttr _ s) => (varGet i.cls.name name s i.dict).map .val
  | Option.some (.staticVar _ s sid) => (staticGet name s sid σ).map .val
  | Option.some (.method _ body) =>
    match lookupStr i.dict name with
    | Option.some v => .ok (.val v)
    | Option.none => .ok (.boundMethod body)
  | Option.some (.plainFn body) =>
    match lookupStr i.dict name with
    | Option.some v => .ok (.val v)
    | Option.none => .ok (.boundMethod body)
  | Option.some (.plainVal v) =>
    match lookupStr i.dict name with
    | Option.some w => .ok (.val w)
    | Option.none => .ok (.val v)
  | Option.none =>
    match lookupStr i.dict name with
    | Option.some v => .ok (.val v)
    | Option.none => .error (.noAttribute i.cls.name name)

/-- Attribute write on a plain instance, per Python `setattr` applied to
the inner object: a `_Constant` data descriptor raises
(`_Constant.__set__`), a `_Variable` stores the validated value in the
instance `__dict__` (`_Variable.__set__`), a `_StaticVariable` stores
the validated value in its shared cell (`_StaticVariable.__set__`), and
anything else writes the instance `__dict__` directly. -/
def innerSet (i : InnerObj) (σ : Store) (name : String) (v : PyVal) :
    Except YErr (InnerObj × Store) :=
  match chainLookup i.cls name with
  | Option.some (.constant _ _) => .error (.constantOverride i.cls.name name)
  | Option.some (.varAttr _ s) =>
    (validateVar name s v).map (fun w => (⟨i.cls, setEntry i.dict name w⟩, σ))
  | Option.some (.staticVar _ s sid) =>
    (validateVar name s v).map (fun w => (i, updateStore σ sid w))
  | _ => .ok (⟨i.cls, setEntry i.dict name v⟩, σ)

/-- Attribute delete on a plain instance: the library's attribute
classes define the finalizer `__del__` rather than the descriptor hook
`__delete__`, so CPython's delete slot raises `AttributeError` for any
descriptor-backed member; otherwise an instance `__dict__` entry is
removed, and a missing one raises. -/
def innerDel (i : InnerObj) (name : String) : Except YErr InnerObj :=
  match chainLookup i.cls name with
  | Option.some (.constant _ _) => .error .descriptorDeleteMissing
  | Option.some (.varAttr _ _) => .error .descriptorDeleteMissing
  | Option.some (.staticVar _ _ _) => .error .descriptorDeleteMissing
  | _ =>
    match lookupStr i.dict name with
    | Option.some _ => .ok ⟨i.cls, removeEntry i.dict name⟩
    | Option.none => .error (.noAttribute i.cls.name name)

/-- Entry of the wrapper class `Object`'s own `__dict__`: either a
`_PrivateAttribute` / `_ProtectedAttribute` placeholder installed by
`encapsulate` (yuppy.py:644-656), or a plain value stored by a later
class-level assignment (`type.__setattr__`). -/
inductive ObjEntry where
  | placeholder (vis : String)
  | plainVal (v : PyVal)

/-- Placeholder construction of `encapsulate`: for every member of the
class's **own** `__dict__` whose `__visibility__` reads `"private"` or
`"protected"`, a stand-in descriptor is installed on the wrapper class;
members without `__visibility__` are skipped via
`except AttributeError: continue`. -/
def mkPlaceholders : List (String × Attr) → List (String × ObjEntry)
  | [] => []
  | (k, a) :: rest =>
    match visibilityOf a with
    | Option.some vis =>
      if vis == "private" then (k, .placeholder "private") :: mkPlaceholders rest
      else if vis == "protected" then (k, .placeholder "protected") :: mkPlaceholders rest
      else mkPlaceholders rest
    | Option.none => mkPlaceholders rest

/-- Encapsulated class: the stripped original class (the closure
variable `cls` of `encapsulate`, after the base-rewriting loop removed
any previously applied `Object` wrappers from the chain) together with
the wrapper class `Object`'s own `__dict__`. -/
structure EncapClass where
  cls : PyClass
  objDict : List (String × ObjEntry)

/-- Model of `encapsulate(cls)` (yuppy.py:535-658): the wrapper starts
with exactly the private/protected placeholders of the class's own
members.  A subclass of an encapsulated class is modelled by building it
over the stripped parent `cls` and encapsulating again, mirroring the
base-rewriting loop. -/
def encapsulate (c : PyClass) : EncapClass :=
  ⟨c, mkPlaceholders (ownDict c)⟩

/-- Encapsulated instance: `Object.__init__` stores the plain inner
instance under `self.__dict__['__private__']`; the instance's runtime
class is the wrapper `Object` itself. -/
structure OuterObj where
  ecls : EncapClass
  inner : InnerObj

/-- Construction through the wrapper (`Object(*args)`): the inner plain
instance starts with an empty `__dict__` (the claims' classes declare no
custom `__init__`). -/
def newInstance (e : EncapClass) : OuterObj :=
  ⟨e, ⟨e.cls, []⟩⟩

/-- Class-level assignment on the wrapper class (`Object.foo = v`), as
the constant test performs: plain `type.__setattr__` stores the value in
the wrapper class's own `__dict__`, replacing any entry there; the
stripped original class is untouched. -/
def setClassAttr (e : EncapClass) (name : String) (v : PyVal) : EncapClass :=
  ⟨e.cls, setEntry e.objDict name (.plainVal v)⟩

/-- Result of `get_definition` (yuppy.py:563-584): the outer instance
`__dict__` (which holds exactly `__private__`, the inner object), then
the stripped class's `__dict__`, then the base chain. -/
inductive DefEntry where
  | innerEntry
  | attrEntry (a : Attr)

/-- Definition search of the guard.  Failure models the
`AttributeError("'%s' object has no attribute '%s'.")` raise of
`get_definition` (whose first slot is filled with the class object
itself; the model records the class name). -/
def getDefinition (e : EncapClass) (name : String) : Option DefEntry :=
  if name == "__private__" then Option.some .innerEntry
  else (chainLookup e.cls name).map .attrEntry

/-- Visibility resolution of the guard (`get_visibility`,
yuppy.py:586-591): the definition's `__visibility__`, with
`AttributeError` (no such field, e.g. on the inner object, a plain
function or a plain value) defaulting to `"public"`. -/
def getVisibility (e : EncapClass) (name : String) : Except YErr String :=
  match getDefinition e name with
  | Option.some .innerEntry => .ok "public"
  | Option.some (.attrEntry a) => .ok ((visibilityOf a).getD "public")
  | Option.none => .error (.noAttribute e.cls.name name)

/-- Access guard `call` (yuppy.py:601-611): public forwards the callback
to the inner object; protected would forward only when
`self.__class__ is not Object and is_child(self, self.__class__)` — for
every instance built through the wrapper's own constructor
`self.__class__` **is** the wrapper class `Object`, so the condition is
false and the access raises; every other visibility string (notably
`"private"`) raises unconditionally.  The error interpolates the
visibility, `cls.__name__` and the member name. -/
def callGuard {α : Type} (e : EncapClass) (name : String)
    (k : Unit → Except YErr α) : Except YErr α :=
  match getVisibility e name with
  | .error er => .error er
  | .ok vis =>
    if vis == "public" then k ()
    else .error (.visibilityViolation vis e.cls.name name)

/-- Result of an attribute read through the encapsulated object: a
value, a method bound to the inner object (the guarded path), a method
bound to the outer object (the dunder bypass path), or the inner
all-access object itself (a read of `__private__`). -/
inductive OuterVal where
  | val (v : PyVal)
  | innerBound (body : MethodBody)
  | outerBound (body : MethodBody)
  | innerRef (i : InnerObj)

/-- Lift of an inner read result into an outer one. -/
def liftIV : InnerVal → OuterVal
  | .val v => .val v
  | .boundMethod b => .innerBound b

/-- Hit of the type-MRO lookup on the wrapper class: the wrapper
`Object`'s own `__dict__` first, then the stripped class chain. -/
inductive MroHit where
  | fromObj (e : ObjEntry)
  | fromCls (a : Attr)

/-- Type-MRO attribute search for the wrapper class `Object`. -/
def mroLookup (e : EncapClass) (name : String) : Option MroHit :=
  match lookupStr e.objDict name with
  | Option.some oe => Option.some (.fromObj oe)
  | Option.none => (chainLookup e.cls name).map .fromCls

/-- Dunder bypass of `Object.__getattribute__` (yuppy.py:628-629):
`cls.__getattribute__(self, name)` is ordinary Python attribute lookup
on the **outer** instance, whose type MRO starts at the wrapper class.
A placeholder is a data descriptor and raises
(`_PrivateAttribute.__get__` / `_ProtectedAttribute.__get__`, with
`instance.__class__.__name__` being the wrapper's literal name
`Object`); other data descriptors run against the outer instance, whose
`__dict__` holds no variable slots (only `__private__`); non-data
entries yield to the outer instance `__dict__`, which is how a read of
`__private__` returns the inner all-access object. -/
def bypassGet (o : OuterObj) (σ : Store) (name : String) : Except YErr OuterVal :=
  match mroLookup o.ecls name with
  | Option.some (.fromObj (.placeholder vis)) =>
    .error (.placeholderAccess vis "Object" name)
  | Option.some (.fromObj (.plainVal v)) =>
    if name == "__private__" then .ok (.innerRef o.inner) else .ok (.val v)
  | Option.some (.fromCls (.constant _ v)) => .ok (.val v)
  | Option.some (.fromCls (.varAttr _ s)) => (varGet "Object" name s []).map .val
  | Option.some (.fromCls (.staticVar _ s sid)) => (staticGet name s sid σ).map .val
  | Option.some (.fromCls (.method _ body)) =>
    if name == "__private__" then .ok (.innerRef o.inner) else .ok (.outerBound body)
  | Option.some (.fromCls (.plainFn body)) =>
    if name == "__private__" then .ok (.innerRef o.inner) else .ok (.outerBound body)
  | Option.some (.fromCls (.plainVal v)) =>
    if name == "__private__" then .ok (.innerRef o.inner) else .ok (.val v)
  | Option.none =>
    if name == "__private__" then .ok (.innerRef o.inner)
    else .error (.noAttribute "Object" name)

/-- Attribute read through the encapsulated object
(`Object.__getattribute__`, yuppy.py:621-630): a name that begins and
ends with two underscores is not processed for accessibility; every
other name goes through the guard, and on success the read is forwarded
to the inner object (`call(self, cls.__getattribute__, name)` with
`self.__private__` as receiver). -/
def outerGet (o : OuterObj) (σ : Store) (name : String) : Except YErr OuterVal :=
  if isDunder name then bypassGet o σ name
  else
    callGuard o.ecls name (fun _ => (innerGet o.inner σ name).map liftIV)

/-- Attribute write through the encapsulated object
(`Object.__setattr__`, yuppy.py:632-633): always guarded — there is no
dunder bypass for writes — and on success forwarded as
`setattr(self.__private__, name, value)`. -/
def outerSet (o : OuterObj) (σ : Store) (name : String) (v : PyVal) :
    Except YErr (OuterObj × Store) :=
  callGuard o.ecls name (fun _ =>
    (innerSet o.inner σ name v).map (fun r => (⟨o.ecls, r.1⟩, r.2)))

/-- Attribute delete through the encapsulated object
(`Object.__delattr__`, yuppy.py:635-636): always guarded, forwarded as
`delattr(self.__private__, name)`. -/
def outerDel (o : OuterObj) (σ : Store) (name : String) :
    Except YErr (OuterObj × Store) :=
  callGuard o.ecls name (fun _ =>
    (innerDel o.inner name).map (fun i => (⟨o.ecls, i⟩, σ)))

/-- Execution of a method body with `self` bound to the inner plain
object, which is how `_Method.__get__` and plain-function binding run
method code: every `self.<attr>` access inside a method is ordinary
attribute access on the inner object, subject to no visibility guard. -/
def runBody (body : MethodBody) (i : InnerObj) (σ : Store) (arg : PyVal) :
    Except YErr (InnerVal × InnerObj × Store) :=
  match body with
  | .returnConst v => .ok (.val v, i, σ)
  | .getSelf a => (innerGet i σ a).map (fun r => (r, i, σ))
  | .setSelf a => (innerSet i σ a arg).map (fun r => (.val .none, r.1, r.2))

/-- Execution of a method body with `self` bound to the **outer**
object, the binding produced by the dunder bypass path (possible only
for dunder-named methods): every `self.<attr>` access goes back through
the encapsulated object's interception. -/
def runBodyOuter (body : MethodBody) (o : OuterObj) (σ : Store) (arg : PyVal) :
    Except YErr (OuterVal × OuterObj × Store) :=
  match body with
  | .returnConst v => .ok (.val v, o, σ)
  | .getSelf a => (outerGet o σ a).map (fun r => (r, o, σ))
  | .setSelf a => (outerSet o σ a arg).map (fun r => (.val .none, r.1, r.2))

/-- Method invocation through the encapsulated object
(`instance.name(arg)`): the attribute read, followed by calling the
bound method it produced; calling a non-callable value raises
`TypeError` as Python does. -/
def invokeOuter (o : OuterObj) (σ : Store) (name : String) (arg : PyVal) :
    Except YErr (OuterVal × OuterObj × Store) :=
  match outerGet o σ name with
  | .error e => .error e
  | .ok (.innerBound body) =>
    (runBody body o.inner σ arg).map (fun r => (liftIV r.1, ⟨o.ecls, r.2.1⟩, r.2.2))
  | .ok (.outerBound body) => runBodyOuter body o σ arg
  | .ok _ => .error (.typeError "object is not callable")

/-- Entry of an interface's `__dict__` after the `interface` decorator
ran: an `_AbstractAttribute` (what every non-dunder member was replaced
with, yuppy.py:460-464), or an untouched dunder member. -/
inductive IfaceEntry where
  | abstractA
  | dunderA
deriving DecidableEq, Repr

/-- Interface produced by the `interface` decorator: its name and its
member dictionary. -/
structure Iface where
  name : String
  dict : List (String × IfaceEntry)
deriving DecidableEq, Repr

/-- Model of `interface(cls)` (yuppy.py:456-470) applied to a class body
with the given member names: every member whose name is not dunder
becomes an `_AbstractAttribute`; dunder members are left as they are
(and are invisible to `implements`, which only looks for
`_AbstractAttribute` instances). -/
def mkInterface (nm : String) (members : List String) : Iface :=
  ⟨nm, members.map (fun k => (k, if isDunder k then IfaceEntry.dunderA else IfaceEntry.abstractA))⟩

/-- Class together with its recorded conformance set
(`cls.__interfaces__`). -/
structure ImplClass where
  cls : PyClass
  interfaces : List Iface

/-- Member-coverage loop of `implements` (yuppy.py:477-482): for every
`_AbstractAttribute` of the interface, the implementing class's **own**
`__dict__` (`cls.__dict__[key]`) must hold a same-named member;
the first miss raises the `TypeError` naming the class, the member and
the interface. -/
def implementsGo (clsName ifaceName : String) (own : List (String × Attr)) :
    List (String × IfaceEntry) → Except YErr Unit
  | [] => .ok ()
  | (k, .abstractA) :: rest =>
    match lookupStr own k with
    | Option.some _ => implementsGo clsName ifaceName own rest
    | Option.none => .error (.missingInterfaceAttr clsName k ifaceName)
  | (_, .dunderA) :: rest => implementsGo clsName ifaceName own rest

/-- Model of the `implements(interface)` decorator (yuppy.py:472-489):
after the coverage check succeeds, the interface is added to the class's
conformance set (a Python `set`, so adding an already-present interface
is a no-op). -/
def implementsDecor (i : Iface) (c : PyClass) (prev : List Iface) :
    Except YErr ImplClass :=
  match implementsGo c.name i.name (ownDict c) i.dict with
  | .error e => .error e
  | .ok _ => .ok ⟨c, if i ∈ prev then prev else prev ++ [i]⟩

/-- Names of the abstract members of an interface. -/
def abstractKeys (i : Iface) : List String :=
  (i.dict.filter (fun e => e.2 == IfaceEntry.abstractA)).map (fun e => e.1)

/-- Decision of whether a class's own `__dict__` covers every abstract
member of an interface. -/
def coversOwn (c : PyClass) (i : Iface) : Bool :=
  (abstractKeys i).all (fun k => (lookupStr (ownDict c) k).isSome)

/-- Class-like object usable as a base in a class statement: a real
class, or the plain constructor **function** that the `final` decorator
returns. -/
inductive ClassLike where
  | realCls (c : PyClass)
  | ctorFn (target : EncapClass)

/-- Model of `final(cls)` (yuppy.py:443-454): the class is encapsulated
and a plain function closing over it is returned in its place (only its
`__name__` is copied); the function constructs instances by forwarding
to the encapsulated class. -/
def finalDecor (c : PyClass) : ClassLike :=
  .ctorFn (encapsulate c)

/-- Call of the constructor function returned by `final`: it forwards to
the encapsulated class and so builds an encapsulated instance.  Calling
a plain class builds a plain instance (an `InnerObj` with empty
`__dict__`), which is not a wrapper object, hence the `Option`. -/
def callCtor (cl : ClassLike) : Option OuterObj :=
  match cl with
  | .ctorFn e => Option.some (newInstance e)
  | .realCls _ => Option.none

/-- Construction of a plain (un-encapsulated) instance of a class: the
behaviour of `SomeClass()` before any decorator is applied. -/
def plainInstance (c : PyClass) : InnerObj :=
  ⟨c, []⟩

/-- Class-statement subclass declaration over a base: Python's class
statement requires a class as base, so declaring a subclass of the
function returned by `final` raises `TypeError` at definition time,
before any subclass object exists. -/
def declareSubclass (nm : String) (d : List (String × Attr)) (b : ClassLike) :
    Except YErr PyClass :=
  match b with
  | .realCls c => .ok (.derived nm d c)
  | .ctorFn _ =>
    .error (.typeError "Error when calling the metaclass bases: function argument must be a class")

/-- Key just written is the key found. -/
theorem lookupStr_setEntry_self {α : Type} (d : List (String × α)) (n : String) (v : α) :
    lookupStr (setEntry d n v) n = Option.some v := by
  induction d with
  | nil => simp [setEntry, lookupStr]
  | cons hd tl ih =>
    obtain ⟨k, w⟩ := hd
    by_cases h : k = n
    · subst h
      simp [setEntry, lookupStr]
    · simp [setEntry, h, lookupStr, ih]

/-- Writing one key leaves the lookup of a different key unchanged. -/
theorem lookupStr_setEntry_ne {α : Type} (d : List (String × α)) (n k : String) (v : α)
    (h : k ≠ n) :
    lookupStr (setEntry d n v) k = lookupStr d k := by
  induction d with
  | nil => simp [setEntry, lookupStr, Ne.symm h]
  | cons hd tl ih =>
    obtain ⟨k', w⟩ := hd
    by_cases hk : k' = n
    · subst hk
      simp [setEntry, lookupStr, Ne.symm h]
    · simp [setEntry, hk, lookupStr, ih]

/-- Placeholders are installed only at keys of the scanned dictionary. -/
theorem lookupStr_mkPlaceholders_none (l : List (String × Attr)) (k : String)
    (h : lookupStr l k = Option.none) :
    lookupStr (mkPlaceholders l) k = Option.none := by
  induction l with
  | nil => simp [mkPlaceholders, lookupStr]
  | cons hd tl ih =>
    obtain ⟨k', a⟩ := hd
    by_cases hk : k' = k
    · subst hk
      simp [lookupStr] at h
    · simp only [lookupStr, beq_iff_eq, hk, if_false] at h
      cases hva : visibilityOf a with
      | none => simpa [mkPlaceholders, hva] using ih h
      | some vis =>
        by_cases h1 : vis = "private"
        · simp [mkPlaceholders, hva, h1, lookupStr, hk, ih h]
        · by_cases h2 : vis = "protected"
          · simp [mkPlaceholders, hva, h1, h2, lookupStr, hk, ih h]
          · simp [mkPlaceholders, hva, h1, h2, ih h]

/-- Name that is not dunder is in particular not the slot name
`__private__` of the wrapper's instance dictionary. -/
theorem beq_private_eq_false_of_not_dunder (n : String) (h : isDunder n = false) :
    (n == "__private__") = false := by
  cases hb : n == "__private__"
  · rfl
  · have := eq_of_beq hb
    subst this
    exact absurd h (by decide)

/-- C1: a member declared private in an encapsulated class is fully
sealed off through the external object reference: each of get, set and
delete (which all route through the `call` guard, since the member's
name is not dunder) raises an `AttributeError` interpolating the
visibility `private`, the class name and the member name; none of them
returns or stores a value. -/
theorem c1_private_external_access_raises
    (e : EncapClass) (i : InnerObj) (σ : Store) (name : String) (v : PyVal) (a : Attr)
    (hlk : chainLookup e.cls name = Option.some a)
    (hv : visibilityOf a = Option.some "private")
    (hnd : isDunder name = false) :
    outerGet ⟨e, i⟩ σ name = .error (.visibilityViolation "private" e.cls.name name) ∧
    outerSet ⟨e, i⟩ σ name v = .error (.visibilityViolation "private" e.cls.name name) ∧
    outerDel ⟨e, i⟩ σ name = .error (.visibilityViolation "private" e.cls.name name) ∧
    renderErr (.visibilityViolation "private" e.cls.name name) =
      "Cannot access private '" ++ e.cls.name ++ "' member '" ++ name ++ "'." := by
  have hp := beq_private_eq_false_of_not_dunder name hnd
  refine ⟨?_, ?_, ?_, ?_⟩
  · simp [outerGet, hnd, callGuard, getVisibility, getDefinition, hp, hlk, hv]
  · simp [outerSet, callGuard, getVisibility, getDefinition, hp, hlk, hv]
  · simp [outerDel, callGuard, getVisibility, getDefinition, hp, hlk, hv]
  · rfl

/-- Witness for C1 at a concrete class with one private variable. -/
theorem c1_witness :
    outerGet ⟨encapsulate (.base "Secretive" [("foo", .varAttr "private" ⟨true, .int 3, Option.none, Option.none⟩)]), ⟨.base "Secretive" [("foo", .varAttr "private" ⟨true, .int 3, Option.none, Option.none⟩)], []⟩⟩ emptyStore "foo" =
      .error (.visibilityViolation "private" "Secretive" "foo") := by
  exact (c1_private_external_access_raises
    (encapsulate (.base "Secretive" [("foo", .varAttr "private" ⟨true, .int 3, Option.none, Option.none⟩)]))
    ⟨.base "Secretive" [("foo", .varAttr "private" ⟨true, .int 3, Option.none, Option.none⟩)], []⟩
    emptyStore "foo" (.int 0) _ rfl rfl (by decide)).1

/-- Concrete protected-inheritance setup for claim C2, mirroring the
`ProtectedVariable` / `ExtendedVariable` classes of the repository's
test-suite: a base class declaring a protected variable with no default,
and an encapsulated subclass with a public method returning `self.foo`. -/
def c2SubCls : PyClass :=
  .derived "ExtendedVariable"
    [("extfoo", .method "public" (.getSelf "foo"))]
    (.base "ProtectedVariable"
      [("foo", .varAttr "protected" ⟨false, .none, Option.none, Option.none⟩)])

/-- Counterexample to C2 as stated: on a fresh encapsulated subclass
instance whose protected base-class variable has no stored value and no
default, the subclass method reading the member via `self` does not
succeed — it raises the missing-attribute `AttributeError` (the
behaviour the repository's own test marks `This fails!`). -/
theorem c2_counterexample :
    invokeOuter (newInstance (encapsulate c2SubCls)) emptyStore "extfoo" .none =
      .error (.noAttribute "ExtendedVariable" "foo") := by
  rfl

/-- C2 (amended): for a protected variable declared on the base chain of
an encapsulated subclass, a public method defined on the subclass that
reads the member via `self` succeeds whenever the member read has a
result (a stored value or a declared default — the same condition under
which the declaring class's own methods succeed), because method bodies
run against the inner all-access object; whereas the same read performed
externally through the encapsulated reference always raises the
`AttributeError` interpolating `protected`, the class name and the
member name. -/
theorem c2_protected_inheritance_amended
    (p : PyClass) (sub mname aname : String) (sdict : List (String × Attr))
    (d : List (String × PyVal)) (σ : Store) (arg : PyVal) (spec : VarSpec) (w : PyVal)
    (hm : lookupStr sdict mname = Option.some (.method "public" (.getSelf aname)))
    (ha : chainLookup p aname = Option.some (.varAttr "protected" spec))
    (hov : lookupStr sdict aname = Option.none)
    (hndm : isDunder mname = false)
    (hnda : isDunder aname = false)
    (hshadow : lookupStr d mname = Option.none)
    (hval : varGet sub aname spec d = .ok w) :
    invokeOuter ⟨encapsulate (.derived sub sdict p), ⟨.derived sub sdict p, d⟩⟩ σ mname arg =
       .ok (.val w, ⟨encapsulate (.derived sub sdict p), ⟨.derived sub sdict p, d⟩⟩, σ) ∧
    outerGet ⟨encapsulate (.derived sub sdict p), ⟨.derived sub sdict p, d⟩⟩ σ aname =
       .error (.visibilityViolation "protected" sub aname) := by
  have hmB := beq_private_eq_false_of_not_dunder mname hndm
  have haB := beq_private_eq_false_of_not_dunder aname hnda
  constructor
  · simp [invokeOuter, outerGet, hndm, callGuard, getVisibility, getDefinition, hmB,
      chainLookup, hm, hov, ha, encapsulate, visibilityOf, innerGet, hshadow,
      runBody, PyClass.name, hval, liftIV, Except.map]
  · simp [outerGet, hnda, callGuard, getVisibility, getDefinition, haB,
      chainLookup, hov, ha, encapsulate, visibilityOf, PyClass.name]

/-- Witness for the amended C2 at the test's classes with a stored
value for the protected member. -/
theorem c2_witness :
    invokeOuter ⟨encapsulate c2SubCls, ⟨c2SubCls, [("foo", .int 7)]⟩⟩ emptyStore "extfoo" .none =
       .ok (.val (.int 7), ⟨encapsulate c2SubCls, ⟨c2SubCls, [("foo", .int 7)]⟩⟩, emptyStore) ∧
    outerGet ⟨encapsulate c2SubCls, ⟨c2SubCls, [("foo", .int 7)]⟩⟩ emptyStore "foo" =
       .error (.visibilityViolation "protected" "ExtendedVariable" "foo") := by
  exact c2_protected_inheritance_amended
    (.base "ProtectedVariable"
      [("foo", .varAttr "protected" ⟨false, .none, Option.none, Option.none⟩)])
    "ExtendedVariable" "extfoo" "foo"
    [("extfoo", .method "public" (.getSelf "foo"))]
    [("foo", .int 7)] emptyStore .none
    ⟨false, .none, Option.none, Option.none⟩ (.int 7)
    rfl rfl rfl (by decide) (by decide) rfl rfl

/-- C3: for a private variable of an encapsulated class with a public
mutator method assigning `self.member` and a public accessor method
returning `self.member`, and any value the variable's checks accept
(validating to the stored value `w`): invoking the mutator through the
external object stores `w` in the inner instance, invoking the accessor
through the external object then returns exactly `w`, while a direct
external read of the member itself still raises the private-visibility
`AttributeError`. -/
theorem c3_private_roundtrip
    (c : PyClass) (aname mset mget : String) (spec : VarSpec)
    (d : List (String × PyVal)) (σ : Store) (v w : PyVal) (arg : PyVal)
    (ha : chainLookup c aname = Option.some (.varAttr "private" spec))
    (hset : chainLookup c mset = Option.some (.method "public" (.setSelf aname)))
    (hget : chainLookup c mget = Option.some (.method "public" (.getSelf aname)))
    (hnda : isDunder aname = false)
    (hnds : isDunder mset = false)
    (hndg : isDunder mget = false)
    (hsh1 : lookupStr d mset = Option.none)
    (hsh2 : lookupStr d mget = Option.none)
    (hv : validateVar aname spec v = .ok w) :
    invokeOuter ⟨encapsulate c, ⟨c, d⟩⟩ σ mset v =
      .ok (.val .none, ⟨encapsulate c, ⟨c, setEntry d aname w⟩⟩, σ) ∧
    invokeOuter ⟨encapsulate c, ⟨c, setEntry d aname w⟩⟩ σ mget arg =
      .ok (.val w, ⟨encapsulate c, ⟨c, setEntry d aname w⟩⟩, σ) ∧
    outerGet ⟨encapsulate c, ⟨c, setEntry d aname w⟩⟩ σ aname =
      .error (.visibilityViolation "private" c.name aname) := by
  have hsB := beq_private_eq_false_of_not_dunder mset hnds
  have hgB := beq_private_eq_false_of_not_dunder mget hndg
  have haB := beq_private_eq_false_of_not_dunder aname hnda
  have hne : mget ≠ aname := by
    intro hEq
    rw [hEq, ha] at hget
    simp at hget
  refine ⟨?_, ?_, ?_⟩
  · simp [invokeOuter, outerGet, hnds, callGuard, getVisibility, getDefinition, hsB,
      hset, visibilityOf, innerGet, hsh1, runBody, innerSet, ha, hv, liftIV, Except.map,
      encapsulate]
  · have hsh2' : lookupStr (setEntry d aname w) mget = Option.none := by
      rw [lookupStr_setEntry_ne d aname mget w hne]
      exact hsh2
    simp [invokeOuter, outerGet, hndg, callGuard, getVisibility, getDefinition, hgB,
      hget, visibilityOf, innerGet, hsh2', runBody, ha, varGet,
      lookupStr_setEntry_self, liftIV, Except.map, encapsulate]
  · simp [outerGet, hnda, callGuard, getVisibility, getDefinition, haB, ha, visibilityOf,
      encapsulate]

/-- Witness for C3: a concrete class with a private int variable whose
validator accepts only 1, a public setter and a public getter; the
round-trip through the external object stores and returns 1. -/
theorem c3_witness :
    invokeOuter ⟨encapsulate (.base "PrivateVariable" [("foo", .varAttr "private" ⟨false, .none, Option.some (.single .intT), Option.some (fun x => x == .int 1)⟩), ("setfoo", .method "public" (.setSelf "foo")), ("getfoo", .method "public" (.getSelf "foo"))]), ⟨.base "PrivateVariable" [("foo", .varAttr "private" ⟨false, .none, Option.some (.single .intT), Option.some (fun x => x == .int 1)⟩), ("setfoo", .method "public" (.setSelf "foo")), ("getfoo", .method "public" (.getSelf "foo"))], []⟩⟩ emptyStore "setfoo" (.int 1) =
      .ok (.val .none, ⟨encapsulate (.base "PrivateVariable" [("foo", .varAttr "private" ⟨false, .none, Option.some (.single .intT), Option.some (fun x => x == .int 1)⟩), ("setfoo", .method "public" (.setSelf "foo")), ("getfoo", .method "public" (.getSelf "foo"))]), ⟨.base "PrivateVariable" [("foo", .varAttr "private" ⟨false, .none, Option.some (.single .intT), Option.some (fun x => x == .int 1)⟩), ("setfoo", .method "public" (.setSelf "foo")), ("getfoo", .method "public" (.getSelf "foo"))], setEntry [] "foo" (.int 1)⟩⟩, emptyStore) := by
  exact (c3_private_roundtrip
    (.base "PrivateVariable" [("foo", .varAttr "private" ⟨false, .none, Option.some (.single .intT), Option.some (fun x => x == .int 1)⟩), ("setfoo", .method "public" (.setSelf "foo")), ("getfoo", .method "public" (.getSelf "foo"))])
    "foo" "setfoo" "getfoo"
    ⟨false, .none, Option.some (.single .intT), Option.some (fun x => x == .int 1)⟩
    [] emptyStore (.int 1) (.int 1) .none
    rfl rfl rfl (by decide) (by decide) (by decide) rfl rfl rfl).1

/-- C4: for a constant declared with value `V` on an encapsulated class:
(1) every write attempt through an instance raises an `AttributeError`
(the `_Constant.__set__` raise when the guard forwards a public
constant, the guard's own visibility raise otherwise), storing nothing;
(2) a read of the constant yields exactly `V` on every instance — via
the inner object for any visibility, and via the external reference for
a public constant — for any instance state, any wrapper-class `__dict__`
state (hence before or after arbitrary class-level reassignments, which
only touch the wrapper's `__dict__`), including instances constructed
after a reassignment such as `setClassAttr`. -/
theorem c4_constant_immutability
    (c : PyClass) (name vis : String) (V : PyVal)
    (od : List (String × ObjEntry)) (idict : List (String × PyVal))
    (σ : Store) (v : PyVal)
    (hc : chainLookup c name = Option.some (.constant vis V))
    (hnd : isDunder name = false) :
    outerSet ⟨⟨c, od⟩, ⟨c, idict⟩⟩ σ name v =
      .error (if vis == "public" then .constantOverride c.name name
              else .visibilityViolation vis c.name name) ∧
    innerGet ⟨c, idict⟩ σ name = .ok (.val V) ∧
    (vis = "public" →
      outerGet ⟨⟨c, od⟩, ⟨c, idict⟩⟩ σ name = .ok (.val V)) ∧
    (vis = "public" → ∀ w : PyVal,
      outerGet ⟨setClassAttr ⟨c, od⟩ name w, ⟨c, idict⟩⟩ σ name = .ok (.val V)) := by
  have hpB := beq_private_eq_false_of_not_dunder name hnd
  refine ⟨?_, ?_, ?_, ?_⟩
  · by_cases hv : vis = "public"
    · subst hv
      simp [outerSet, callGuard, getVisibility, getDefinition, hpB, hc, visibilityOf,
        innerSet, Except.map]
    · simp [outerSet, callGuard, getVisibility, getDefinition, hpB, hc, visibilityOf,
        hv]
  · simp [innerGet, hc]
  · intro hv
    subst hv
    simp [outerGet, hnd, callGuard, getVisibility, getDefinition, hpB, hc, visibilityOf,
      innerGet, liftIV, Except.map]
  · intro hv w
    subst hv
    simp [outerGet, hnd, callGuard, getVisibility, getDefinition, hpB, hc, visibilityOf,
      innerGet, liftIV, Except.map, setClassAttr]

/-- Witness for C4 at the test-suite's `Constant` class, with the
wrapper-class dictionary holding the later `Constant.foo = baz`
assignment: the write raises and the read still returns `bar`. -/
theorem c4_witness :
    outerSet ⟨⟨.base "Constant" [("foo", .constant "public" (.str "bar"))], [("foo", .plainVal (.str "baz"))]⟩, ⟨.base "Constant" [("foo", .constant "public" (.str "bar"))], []⟩⟩ emptyStore "foo" (.str "baz") =
      .error (.constantOverride "Constant" "foo") ∧
    outerGet ⟨⟨.base "Constant" [("foo", .constant "public" (.str "bar"))], [("foo", .plainVal (.str "baz"))]⟩, ⟨.base "Constant" [("foo", .constant "public" (.str "bar"))], []⟩⟩ emptyStore "foo" = .ok (.val (.str "bar")) := by
  have h := c4_constant_immutability
    (.base "Constant" [("foo", .constant "public" (.str "bar"))])
    "foo" "public" (.str "bar")
    [("foo", .plainVal (.str "baz"))] [] emptyStore (.str "baz")
    rfl (by decide)
  exact ⟨h.1, h.2.2.1 rfl⟩

/-- Counterexample to C5 as stated: with type `int` and validator
`x == 1`, assigning the string `5` coerces to the int `5`, on which the
validator is false — yet `_validate` returns the coerced value without
ever applying the validator (the `return value` inside the coercion
branch short-circuits), and the set stores `5`. -/
theorem c5_counterexample :
    validateVar "foo"
      ⟨true, .int 2, Option.some (.single .intT), Option.some (fun x => x == .int 1)⟩
      (.str "5") = .ok (.int 5) ∧
    (fun x => x == PyVal.int 1) (PyVal.int 5) = false ∧
    innerSet
      ⟨.base "PublicVariable"
        [("foo", .varAttr "public" ⟨true, .int 2, Option.some (.single .intT), Option.some (fun x => x == .int 1)⟩)], []⟩
      emptyStore "foo" (.str "5") =
      .ok (⟨.base "PublicVariable"
        [("foo", .varAttr "public" ⟨true, .int 2, Option.some (.single .intT), Option.some (fun x => x == .int 1)⟩)], [("foo", .int 5)]⟩, emptyStore) := by
  exact ⟨rfl, rfl, rfl⟩

/-- C5 (amended): for a variable with a single (non-tuple/list) declared
type and a validator, assignment runs the type check first; a value
already an instance of the type is then subjected to the validator
(false raising the `AttributeError` naming the attribute); a value not
an instance undergoes the coercion call, whose failure raises the
`AttributeError` naming the attribute and whose success returns the
coerced value directly, **skipping the validator**; the value stored by
the set is exactly the value validation returned, never the uncoerced
value. -/
theorem c5_type_then_coerce_amended
    (name : String) (t : PyType) (p : PyVal → Bool) (hd : Bool) (df v : PyVal) :
    (isinstanceT v t = true →
      validateVar name ⟨hd, df, Option.some (.single t), Option.some p⟩ v =
        (if p v then .ok v else .error (.invalidValue name))) ∧
    (isinstanceT v t = false →
      validateVar name ⟨hd, df, Option.some (.single t), Option.some p⟩ v =
        (match coerceT t v with
         | .ok w => .ok w
         | .error _ => .error (.invalidValue name))) ∧
    (∀ (c : PyClass) (dct : List (String × PyVal)) (σ : Store) (vis : String) (w : PyVal),
      chainLookup c name =
        Option.some (.varAttr vis ⟨hd, df, Option.some (.single t), Option.some p⟩) →
      validateVar name ⟨hd, df, Option.some (.single t), Option.some p⟩ v = .ok w →
      innerSet ⟨c, dct⟩ σ name v = .ok (⟨c, setEntry dct name w⟩, σ)) := by
  refine ⟨?_, ?_, ?_⟩
  · intro h
    simp [validateVar, isinstanceCon, h]
  · intro h
    simp [validateVar, isinstanceCon, h]
  · intro c dct σ vis w hc hval
    simp [innerSet, hc, hval, Except.map]

/-- Witness for the amended C5: a value of the declared type is checked
by the validator and rejected when the validator is false. -/
theorem c5_witness :
    validateVar "foo"
      ⟨true, .int 2, Option.some (.single .intT), Option.some (fun x => x == .int 1)⟩
      (.int 2) = .error (.invalidValue "foo") := by
  have h := (c5_type_then_coerce_amended "foo" .intT (fun x => x == .int 1)
    true (.int 2) (.int 2)).1 (by decide)
  simpa using h

/-- C6: reading an instance-scoped variable returns the value stored in
that instance's own store when set; with nothing stored it returns the
declared default when there is one, and raises the missing-attribute
`AttributeError` when there is neither; in particular a fresh
encapsulated instance of a class with a public defaulted variable reads
exactly the default through the external object. -/
theorem c6_variable_get
    (clsName name : String) (spec : VarSpec) (d : List (String × PyVal)) :
    (∀ v, lookupStr d name = Option.some v → varGet clsName name spec d = .ok v) ∧
    (lookupStr d name = Option.none → spec.hasdefault = true →
      varGet clsName name spec d = .ok spec.default) ∧
    (lookupStr d name = Option.none → spec.hasdefault = false →
      varGet clsName name spec d = .error (.noAttribute clsName name)) ∧
    (∀ (c : PyClass) (σ : Store),
      chainLookup c name = Option.some (.varAttr "public" spec) →
      isDunder name = false → spec.hasdefault = true →
      outerGet (newInstance (encapsulate c)) σ name = .ok (.val spec.default)) := by
  refine ⟨?_, ?_, ?_, ?_⟩
  · intro v h
    simp [varGet, h]
  · intro h hd
    simp [varGet, h, hd]
  · intro h hd
    simp [varGet, h, hd]
  · intro c σ hc hnd hd
    have hpB := beq_private_eq_false_of_not_dunder name hnd
    simp [outerGet, hnd, callGuard, getVisibility, getDefinition, hpB, hc, visibilityOf,
      newInstance, encapsulate, innerGet, varGet, lookupStr, hd, liftIV, Except.map]

/-- Witness for C6 at the test-suite's `PublicVariable` class, whose
variable defaults to 2. -/
theorem c6_witness :
    outerGet (newInstance (encapsulate (.base "PublicVariable" [("foo", .varAttr "public" ⟨true, .int 2, Option.some (.single .intT), Option.some (fun x => x == .int 1)⟩)]))) emptyStore "foo" = .ok (.val (.int 2)) := by
  exact (c6_variable_get "PublicVariable" "foo"
    ⟨true, .int 2, Option.some (.single .intT), Option.some (fun x => x == .int 1)⟩ []).2.2.2
    (.base "PublicVariable" [("foo", .varAttr "public" ⟨true, .int 2, Option.some (.single .intT), Option.some (fun x => x == .int 1)⟩)])
    emptyStore rfl (by decide) rfl

/-- C7: a public static variable's storage is the shared cell of its
attribute object: setting it through one encapsulated instance updates
the cell, and a read through any other instance of the same class (any
instance dictionary) returns the updated value; a static variable of
another class with a distinct attribute object is untouched — its read
is unchanged by the update. -/
theorem c7_static_sharing
    (c₁ c₂ : PyClass) (n₁ n₂ : String) (s₁ s₂ : VarSpec) (id₁ id₂ : Nat)
    (d₁ e₂d : List (String × PyVal)) (σ : Store) (v w : PyVal)
    (h₁ : chainLookup c₁ n₁ = Option.some (.staticVar "public" s₁ id₁))
    (h₂ : chainLookup c₂ n₂ = Option.some (.staticVar "public" s₂ id₂))
    (hnd₁ : isDunder n₁ = false) (hnd₂ : isDunder n₂ = false)
    (hid : id₂ ≠ id₁)
    (hv : validateVar n₁ s₁ v = .ok w) :
    outerSet ⟨encapsulate c₁, ⟨c₁, d₁⟩⟩ σ n₁ v =
      .ok (⟨encapsulate c₁, ⟨c₁, d₁⟩⟩, updateStore σ id₁ w) ∧
    (∀ d', outerGet ⟨encapsulate c₁, ⟨c₁, d'⟩⟩ (updateStore σ id₁ w) n₁ = .ok (.val w)) ∧
    outerGet ⟨encapsulate c₂, ⟨c₂, e₂d⟩⟩ (updateStore σ id₁ w) n₂ =
      outerGet ⟨encapsulate c₂, ⟨c₂, e₂d⟩⟩ σ n₂ := by
  have hB₁ := beq_private_eq_false_of_not_dunder n₁ hnd₁
  have hB₂ := beq_private_eq_false_of_not_dunder n₂ hnd₂
  refine ⟨?_, ?_, ?_⟩
  · simp [outerSet, callGuard, getVisibility, getDefinition, hB₁, h₁, visibilityOf,
      innerSet, hv, Except.map, encapsulate]
  · intro d'
    simp [outerGet, hnd₁, callGuard, getVisibility, getDefinition, hB₁, h₁, visibilityOf,
      innerGet, staticGet, updateStore, liftIV, Except.map, encapsulate]
  · simp [outerGet, hnd₂, callGuard, getVisibility, getDefinition, hB₂, h₂, visibilityOf,
      innerGet, staticGet, updateStore, hid, liftIV, Except.map, encapsulate]

/-- Witness for C7 at the test-suite's `PublicStaticVariable` class and
an unrelated class with its own static variable. -/
theorem c7_witness :
    outerSet ⟨encapsulate (.base "PublicStaticVariable" [("foo", .staticVar "public" ⟨false, .none, Option.some (.single .intT), Option.some (fun x => x == .int 1)⟩ 0)]), ⟨.base "PublicStaticVariable" [("foo", .staticVar "public" ⟨false, .none, Option.some (.single .intT), Option.some (fun x => x == .int 1)⟩ 0)], []⟩⟩ emptyStore "foo" (.int 1) =
      .ok (⟨encapsulate (.base "PublicStaticVariable" [("foo", .staticVar "public" ⟨false, .none, Option.some (.single .intT), Option.some (fun x => x == .int 1)⟩ 0)]), ⟨.base "PublicStaticVariable" [("foo", .staticVar "public" ⟨false, .none, Option.some (.single .intT), Option.some (fun x => x == .int 1)⟩ 0)], []⟩⟩, updateStore emptyStore 0 (.int 1)) ∧
    outerGet ⟨encapsulate (.base "PublicStaticVariable" [("foo", .staticVar "public" ⟨false, .none, Option.some (.single .intT), Option.some (fun x => x == .int 1)⟩ 0)]), ⟨.base "PublicStaticVariable" [("foo", .staticVar "public" ⟨false, .none, Option.some (.single .intT), Option.some (fun x => x == .int 1)⟩ 0)], []⟩⟩ (updateStore emptyStore 0 (.int 1)) "foo" = .ok (.val (.int 1)) ∧
    outerGet ⟨encapsulate (.base "Unrelated" [("bar", .staticVar "public" ⟨true, .int 9, Option.none, Option.none⟩ 1)]), ⟨.base "Unrelated" [("bar", .staticVar "public" ⟨true, .int 9, Option.none, Option.none⟩ 1)], []⟩⟩ (updateStore emptyStore 0 (.int 1)) "bar" =
      outerGet ⟨encapsulate (.base "Unrelated" [("bar", .staticVar "public" ⟨true, .int 9, Option.none, Option.none⟩ 1)]), ⟨.base "Unrelated" [("bar", .staticVar "public" ⟨true, .int 9, Option.none, Option.none⟩ 1)], []⟩⟩ emptyStore "bar" := by
  have h := c7_static_sharing
    (.base "PublicStaticVariable" [("foo", .staticVar "public" ⟨false, .none, Option.some (.single .intT), Option.some (fun x => x == .int 1)⟩ 0)])
    (.base "Unrelated" [("bar", .staticVar "public" ⟨true, .int 9, Option.none, Option.none⟩ 1)])
    "foo" "bar"
    ⟨false, .none, Option.some (.single .intT), Option.some (fun x => x == .int 1)⟩
    ⟨true, .int 9, Option.none, Option.none⟩ 0 1
    [] [] emptyStore (.int 1) (.int 1)
    rfl rfl (by decide) (by decide) (by decide) rfl
  exact ⟨h.1, h.2.1 [], h.2.2⟩

/-- Membership in the abstract-member names of an interface coincides
with an abstract entry of its dictionary. -/
theorem mem_abstractKeys (i : Iface) (k : String) :
    k ∈ abstractKeys i ↔ (k, IfaceEntry.abstractA) ∈ i.dict := by
  simp only [abstractKeys, List.mem_map, List.mem_filter]
  constructor
  · rintro ⟨⟨k', e⟩, ⟨hmem, he⟩, rfl⟩
    have : e = IfaceEntry.abstractA := by
      cases e
      · rfl
      · simp at he
    subst this
    exact hmem
  · intro h
    exact ⟨(k, IfaceEntry.abstractA), ⟨h, rfl⟩, rfl⟩

/-- Coverage loop of `implements` succeeds when every abstract member
name hits the implementing class's own dictionary. -/
theorem implementsGo_ok (cn fn : String) (own : List (String × Attr))
    (l : List (String × IfaceEntry))
    (h : ∀ k, (k, IfaceEntry.abstractA) ∈ l → (lookupStr own k).isSome = true) :
    implementsGo cn fn own l = .ok () := by
  induction l with
  | nil => rfl
  | cons hd tl ih =>
    obtain ⟨k₀, e⟩ := hd
    cases e with
    | abstractA =>
      have hk := h k₀ (by simp)
      cases hlo : lookupStr own k₀ with
      | none => rw [hlo] at hk; simp at hk
      | some a =>
        simp only [implementsGo, hlo]
        exact ih (fun k' hk' => h k' (List.mem_cons_of_mem _ hk'))
    | dunderA =>
      simp only [implementsGo]
      exact ih (fun k' hk' => h k' (List.mem_cons_of_mem _ hk'))

/-- Coverage loop of `implements` raises the member-naming `TypeError`
when some abstract member name misses the class's own dictionary. -/
theorem implementsGo_missing (cn fn : String) (own : List (String × Attr))
    (l : List (String × IfaceEntry)) (k : String)
    (hmem : (k, IfaceEntry.abstractA) ∈ l)
    (hmiss : lookupStr own k = Option.none) :
    ∃ k', implementsGo cn fn own l = .error (.missingInterfaceAttr cn k' fn) ∧
      lookupStr own k' = Option.none ∧ (k', IfaceEntry.abstractA) ∈ l := by
  induction l with
  | nil => simp at hmem
  | cons hd tl ih =>
    obtain ⟨k₀, e⟩ := hd
    cases e with
    | abstractA =>
      cases hlo : lookupStr own k₀ with
      | none =>
        exact ⟨k₀, by simp [implementsGo, hlo], hlo, by simp⟩
      | some a =>
        have htl : (k, IfaceEntry.abstractA) ∈ tl := by
          rcases List.mem_cons.mp hmem with heq | htl
          · exfalso
            have hk : k = k₀ := by
              injection heq with h1 h2
            rw [hk, hlo] at hmiss
            simp at hmiss
          · exact htl
        obtain ⟨k', h1, h2, h3⟩ := ih htl
        exact ⟨k', by simp [implementsGo, hlo, h1], h2, List.mem_cons_of_mem _ h3⟩
    | dunderA =>
      have htl : (k, IfaceEntry.abstractA) ∈ tl := by
        rcases List.mem_cons.mp hmem with heq | htl
        · exact absurd heq (by simp)
        · exact htl
      obtain ⟨k', h1, h2, h3⟩ := ih htl
      exact ⟨k', by simp [implementsGo, h1], h2, List.mem_cons_of_mem _ h3⟩

/-- Counterexample interface and classes for C8: the base class defines
the interface's sole abstract member, the subclass inherits it. -/
def c8Iface : Iface := mkInterface "AnInterface" ["foo"]

/-- Subclass that covers `foo` only through inheritance. -/
def c8Sub : PyClass :=
  .derived "SubImpl" []
    (.base "BaseImpl" [("foo", .plainFn (.returnConst (.str "bar")))])

/-- Counterexample to C8 as stated: the subclass obtains the abstract
member `foo` by inheritance (the chain lookup finds it), yet
`implements` checks only the class's **own** `__dict__`
(`cls.__dict__[key]`), so the decoration raises the missing-member
`TypeError` instead of succeeding. -/
theorem c8_counterexample :
    implementsDecor c8Iface c8Sub [] =
      .error (.missingInterfaceAttr "SubImpl" "foo" "AnInterface") ∧
    chainLookup c8Sub "foo" = Option.some (.plainFn (.returnConst (.str "bar"))) := by
  exact ⟨rfl, rfl⟩

/-- C8 (amended): `implements(I)` checks, at decoration time, that every
abstract member of `I` has a same-named member in the class's **own**
dictionary — members obtained purely by inheritance do not count; a
missing one raises the `TypeError` naming the class, the member and the
interface, while full own-dictionary coverage makes the decoration
succeed and record `I` in the class's conformance set. -/
theorem c8_implements_own_dict_amended (i : Iface) (c : PyClass) (prev : List Iface) :
    (coversOwn c i = true →
      ∃ l, implementsDecor i c prev = .ok ⟨c, l⟩ ∧ i ∈ l) ∧
    (coversOwn c i = false →
      ∃ k, implementsDecor i c prev = .error (.missingInterfaceAttr c.name k i.name) ∧
        lookupStr (ownDict c) k = Option.none ∧ (k, IfaceEntry.abstractA) ∈ i.dict) := by
  constructor
  · intro h
    have hpt : ∀ k, (k, IfaceEntry.abstractA) ∈ i.dict → (lookupStr (ownDict c) k).isSome = true := by
      intro k hk
      have := (List.all_eq_true.mp (by simpa [coversOwn] using h)) k
        ((mem_abstractKeys i k).mpr hk)
      simpa using this
    refine ⟨if i ∈ prev then prev else prev ++ [i], ?_, ?_⟩
    · simp [implementsDecor, implementsGo_ok c.name i.name (ownDict c) i.dict hpt]
    · by_cases hmem : i ∈ prev
      · simp [hmem]
      · simp [hmem]
  · intro h
    have : ∃ k ∈ abstractKeys i, ¬ (lookupStr (ownDict c) k).isSome = true := by
      by_contra hall
      push_neg at hall
      have : coversOwn c i = true := by
        simp only [coversOwn, List.all_eq_true]
        intro k hk
        simpa using hall k hk
      rw [this] at h
      simp at h
    obtain ⟨k, hk, hmiss⟩ := this
    have hmiss' : lookupStr (ownDict c) k = Option.none := by
      cases hlo : lookupStr (ownDict c) k with
      | none => rfl
      | some a => rw [hlo] at hmiss; simp at hmiss
    obtain ⟨k', h1, h2, h3⟩ :=
      implementsGo_missing c.name i.name (ownDict c) i.dict k
        ((mem_abstractKeys i k).mp hk) hmiss'
    exact ⟨k', by simp [implementsDecor, h1], h2, h3⟩

/-- Witness for the amended C8: a class whose own dictionary covers the
abstract member; the decoration succeeds and the interface is
recorded. -/
theorem c8_witness :
    ∃ l, implementsDecor c8Iface
        (.base "FullImpl" [("foo", .plainFn (.returnConst (.str "bar")))]) [] =
        .ok ⟨.base "FullImpl" [("foo", .plainFn (.returnConst (.str "bar")))], l⟩ ∧
      c8Iface ∈ l := by
  exact (c8_implements_own_dict_amended c8Iface
    (.base "FullImpl" [("foo", .plainFn (.returnConst (.str "bar")))]) []).1 (by decide)

/-- Concrete class for the C9 counterexample: one private and one
public defaulted variable. -/
def c9Cls : PyClass :=
  .base "Sealed"
    [("secret", .varAttr "private" ⟨true, .int 42, Option.none, Option.none⟩),
     ("pub", .varAttr "public" ⟨true, .int 7, Option.none, Option.none⟩)]

/-- Counterexample to C9 as stated: `final` also encapsulates the class
(`cls = encapsulate(cls)` inside the decorator), so instances of the
finalized class do **not** behave as before the marking — a private
member readable on a plain instance raises the visibility
`AttributeError` on an instance built through the finalized
constructor. -/
theorem c9_counterexample :
    innerGet (plainInstance c9Cls) emptyStore "secret" = .ok (.val (.int 42)) ∧
    callCtor (finalDecor c9Cls) = Option.some (newInstance (encapsulate c9Cls)) ∧
    outerGet (newInstance (encapsulate c9Cls)) emptyStore "secret" =
      .error (.visibilityViolation "private" "Sealed" "secret") := by
  exact ⟨rfl, rfl, rfl⟩

/-- C9 (amended): `final` replaces the class by a plain constructor
function closing over the encapsulated class, so declaring a subclass of
the result raises a `TypeError` at the subclass's definition time,
before any subclass exists; the finalized class remains constructible —
its constructor returns encapsulated instances, on which public member
reads behave exactly as on a plain instance while non-public members are
now guarded. -/
theorem c9_final_amended
    (c : PyClass) (nm : String) (d : List (String × Attr)) (σ : Store)
    (n : String) (a : Attr)
    (hpub : chainLookup c n = Option.some a)
    (hvis : (visibilityOf a).getD "public" = "public")
    (hnd : isDunder n = false) :
    (∃ msg, declareSubclass nm d (finalDecor c) = .error (.typeError msg)) ∧
    callCtor (finalDecor c) = Option.some (newInstance (encapsulate c)) ∧
    outerGet (newInstance (encapsulate c)) σ n =
      Except.map liftIV (innerGet (plainInstance c) σ n) := by
  have hB := beq_private_eq_false_of_not_dunder n hnd
  refine ⟨⟨_, rfl⟩, rfl, ?_⟩
  simp [outerGet, hnd, callGuard, getVisibility, getDefinition, hB, hpub, hvis,
    newInstance, encapsulate, plainInstance]

/-- Witness for the amended C9 at the concrete sealed class and its
public member. -/
theorem c9_witness :
    (∃ msg, declareSubclass "Sub" [] (finalDecor c9Cls) = .error (.typeError msg)) ∧
    callCtor (finalDecor c9Cls) = Option.some (newInstance (encapsulate c9Cls)) ∧
    outerGet (newInstance (encapsulate c9Cls)) emptyStore "pub" =
      Except.map liftIV (innerGet (plainInstance c9Cls) emptyStore "pub") := by
  exact c9_final_amended c9Cls "Sub" [] emptyStore "pub"
    (.varAttr "public" ⟨true, .int 7, Option.none, Option.none⟩) rfl rfl (by decide)

/-- Own-dictionary lookup fails whenever the whole chain lookup
fails. -/
theorem ownDict_lookup_none_of_chain (c : PyClass) (k : String)
    (h : chainLookup c k = Option.none) :
    lookupStr (ownDict c) k = Option.none := by
  cases c with
  | base nm d => simpa [chainLookup, ownDict] using h
  | derived nm d p =>
    simp only [chainLookup, ownDict] at h ⊢
    cases hlo : lookupStr d k with
    | none => rfl
    | some a => rw [hlo] at h; simp at h

/-- Concrete class for the C10 counterexample: a private member whose
name is dunder. -/
def c10Cls : PyClass :=
  .base "Hidden" [("__x__", .varAttr "private" ⟨true, .int 1, Option.none, Option.none⟩)]

/-- Counterexample to C10 as stated: a dunder-named private member is
not forwarded unchecked — the `_PrivateAttribute` placeholder installed
on the wrapper class intercepts the bypassed read and raises. -/
theorem c10_counterexample :
    isDunder "__x__" = true ∧
    outerGet (newInstance (encapsulate c10Cls)) emptyStore "__x__" =
      .error (.placeholderAccess "private" "Object" "__x__") := by
  exact ⟨by decide, rfl⟩

/-- C10 (amended): for dunder names the `call`/`get_visibility` guard is
bypassed and the access handled by ordinary lookup on the wrapper class,
where only dunder-named private/protected members are still intercepted
by placeholder descriptors; in particular, for a class not itself
declaring `__private__`, external code reading `instance.__private__`
obtains the inner all-access object, and through it any private or
protected variable can be written (with any value its checks accept) and
read back without any visibility error. -/
theorem c10_dunder_bypass_amended
    (c : PyClass) (σ : Store) (d : List (String × PyVal))
    (hnp : chainLookup c "__private__" = Option.none) :
    outerGet ⟨encapsulate c, ⟨c, d⟩⟩ σ "__private__" = .ok (.innerRef ⟨c, d⟩) ∧
    (∀ (n vis : String) (spec : VarSpec) (v w : PyVal),
      chainLookup c n = Option.some (.varAttr vis spec) →
      validateVar n spec v = .ok w →
      innerSet ⟨c, d⟩ σ n v = .ok (⟨c, setEntry d n w⟩, σ) ∧
      innerGet ⟨c, setEntry d n w⟩ σ n = .ok (.val w)) := by
  constructor
  · have hph : lookupStr (mkPlaceholders (ownDict c)) "__private__" = Option.none :=
      lookupStr_mkPlaceholders_none (ownDict c) "__private__"
        (ownDict_lookup_none_of_chain c "__private__" hnp)
    simp [outerGet, isDunder, startsUU, bypassGet, mroLookup, encapsulate, hph, hnp]
  · intro n vis spec v w hc hval
    constructor
    · simp [innerSet, hc, hval, Except.map]
    · simp [innerGet, hc, varGet, lookupStr_setEntry_self, Except.map]

/-- Witness for the amended C10: reading `__private__` on a concrete
encapsulated instance yields the inner object, and a private variable is
freely writable and readable through it. -/
theorem c10_witness :
    outerGet ⟨encapsulate (.base "PrivateVariable" [("foo", .varAttr "private" ⟨false, .none, Option.none, Option.none⟩)]), ⟨.base "PrivateVariable" [("foo", .varAttr "private" ⟨false, .none, Option.none, Option.none⟩)], []⟩⟩ emptyStore "__private__" =
      .ok (.innerRef ⟨.base "PrivateVariable" [("foo", .varAttr "private" ⟨false, .none, Option.none, Option.none⟩)], []⟩) ∧
    innerSet ⟨.base "PrivateVariable" [("foo", .varAttr "private" ⟨false, .none, Option.none, Option.none⟩)], []⟩ emptyStore "foo" (.int 3) =
      .ok (⟨.base "PrivateVariable" [("foo", .varAttr "private" ⟨false, .none, Option.none, Option.none⟩)], setEntry [] "foo" (.int 3)⟩, emptyStore) ∧
    innerGet ⟨.base "PrivateVariable" [("foo", .varAttr "private" ⟨false, .none, Option.none, Option.none⟩)], setEntry [] "foo" (.int 3)⟩ emptyStore "foo" = .ok (.val (.int 3)) := by
  have h := c10_dunder_bypass_amended
    (.base "PrivateVariable" [("foo", .varAttr "private" ⟨false, .none, Option.none, Option.none⟩)])
    emptyStore [] rfl
  have h2 := h.2 "foo" "private" ⟨false, .none, Option.none, Option.none⟩ (.int 3) (.int 3)
    rfl rfl
  exact ⟨h.1, h2.1, h2.2⟩
